import Mathlib

/-!
Verification of the OpenHPCA benchmark-run scheduler
(`tools/cmd/openhpca_run/openhpca_run.go`): the required-set filter, the
point-to-point classifier, the experiment builder and the orchestration
of `main`, shallowly embedded in Lean.
-/

namespace OpenHPCA

/-- One runnable sub-benchmark within a suite (Go `app.Info`):
name, binary arguments, binary name, binary path. -/
structure AppInfo where
  name : String
  binArgs : List String
  binName : String
  binPath : String
deriving DecidableEq, Repr

/-- One discovered suite installation (Go `benchmark.Install`):
the ordered list of installed sub-benchmarks. -/
structure Install where
  subBenchmarks : List AppInfo
deriving DecidableEq, Repr

/-- The catalog `cfg.InstalledBenchmarks`: a Go map from suite name to
`*benchmark.Install`, modelled as an association list. -/
def Catalog := List (String × Install)

/-- Go map lookup `cfg.InstalledBenchmarks[name]`: `none` models the nil
pointer returned for a missing key. -/
def lookupSuite (c : Catalog) (name : String) : Option Install :=
  match c with
  | [] => none
  | (k, v) :: rest => if k = name then some v else lookupSuite rest name

/-- Platform/topology description (Go `platform.Info`):
partition name, device, ranks per node (`MaxPPR`), node count. -/
structure PlatformInfo where
  name : String
  device : String
  maxPPR : Int
  maxNumNodes : Int
deriving DecidableEq, Repr

/-- One experiment descriptor (Go `experiments.Experiment` as filled by the
build loop): derived name, the copied app fields, and the optional
topology override (`e.Platform`, `none` when no override is allocated). -/
structure Experiment where
  name : String
  appName : String
  binArgs : List String
  binName : String
  binPath : String
  platform : Option PlatformInfo
deriving DecidableEq, Repr

/-- Go `experimentIsStrictlyPointToPoint` (openhpca_run.go:50-65):
a switch over the experiment name. -/
def experimentIsStrictlyPointToPoint (name : String) : Bool :=
  if name = "osu_latency" then true
  else if name = "osu_noncontig_mem_latency" then true
  else if name = "osu_bw" then true
  else if name = "osu_noncontig_mem_bw" then true
  else if name = "smb_mpi_overhead" then true
  else false

/-- The per-suite required-set filter loop (openhpca_run.go:160-167 and its
two copies): for each name of the required list, scan the installed
sub-benchmarks and append the first one whose name matches (`break`). -/
def filterSuiteGo (required : List String) (installed : List AppInfo) :
    List AppInfo :=
  match required with
  | [] => []
  | name :: rest =>
    match installed.find? (fun a => a.name == name) with
    | some a => a :: filterSuiteGo rest installed
    | none => filterSuiteGo rest installed

/-- The filter as `main` runs it on a map lookup: the Go code dereferences
the looked-up `*benchmark.Install` inside the loop, so a missing suite
(`none`) panics as soon as the required list is non-empty; an empty
required list never enters the loop. `.error ()` models the panic. -/
def filterSuite (required : List String) (inst : Option Install) :
    Except Unit (List AppInfo) :=
  match required with
  | [] => .ok []
  | _ :: _ =>
    match inst with
    | none => .error ()
    | some i => .ok (filterSuiteGo required i.subBenchmarks)

/-- Short-mode selection (openhpca_run.go:156-195): filter the "osu",
"smb" and "overlap" suites, in that order, against their required lists
and rebuild the map with exactly those three keys. -/
def shortModeBenchmarks (osuReq smbReq overlapReq : List String)
    (catalog : Catalog) : Except Unit (List (String × Install)) := do
  let osu ← filterSuite osuReq (lookupSuite catalog "osu")
  let smb ← filterSuite smbReq (lookupSuite catalog "smb")
  let ovl ← filterSuite overlapReq (lookupSuite catalog "overlap")
  return [("osu", ⟨osu⟩), ("smb", ⟨smb⟩), ("overlap", ⟨ovl⟩)]

/-- The mode switch (openhpca_run.go:154-198): short mode filters, long
mode uses the installed catalog unchanged. -/
def benchmarksToRun (longRun : Bool) (osuReq smbReq overlapReq : List String)
    (catalog : Catalog) : Except Unit (List (String × Install)) :=
  if !longRun then shortModeBenchmarks osuReq smbReq overlapReq catalog
  else .ok catalog

/-- The body of the build loop (openhpca_run.go:211-224): copy the app
fields, derive the name `suite_subBenchmark`, and allocate the topology
override exactly when the classifier accepts the name, copying partition
name and device from the global platform and forcing 1 rank per node on
2 nodes. -/
def buildExperiment (globalPlatform : PlatformInfo) (suiteName : String)
    (sub : AppInfo) : Experiment :=
  let n := suiteName ++ "_" ++ sub.name
  { name := n
    appName := n
    binArgs := sub.binArgs
    binName := sub.binName
    binPath := sub.binPath
    platform :=
      if experimentIsStrictlyPointToPoint n then
        some { name := globalPlatform.name
               device := globalPlatform.device
               maxPPR := 1
               maxNumNodes := 2 }
      else none }

/-- The full build loop (openhpca_run.go:209-228): iterate the suites of
`benchmarksToRun` (in the given order), then the sub-benchmarks of each,
appending one experiment per pair. -/
def buildExperiments (globalPlatform : PlatformInfo)
    (toRun : List (String × Install)) : List Experiment :=
  toRun.flatMap (fun p => p.2.subBenchmarks.map (buildExperiment globalPlatform p.1))

/-- The CLI flags of `main` (openhpca_run.go:68-75). -/
structure Flags where
  verbose : Bool
  help : Bool
  partition : String
  device : String
  maxRunningJobs : Int
  ppn : Int
  numNodes : Int
  longRun : Bool
deriving DecidableEq, Repr

/-- The runtime parameters handed to the runner
(Go `experiments.Runtime`, openhpca_run.go:134-137). -/
structure RuntimeCfg where
  maxRunningJobs : Int
  progressFrequency : Int
  sleepBeforeSubmittingAgain : Int
deriving DecidableEq, Repr

/-- Go `experiments.NewRuntime()` followed by the three field assignments
(openhpca_run.go:134-137). -/
def newRuntime (flags : Flags) : RuntimeCfg :=
  { maxRunningJobs := flags.maxRunningJobs
    progressFrequency := 5
    sleepBeforeSubmittingAgain := 1 }

/-- The `experiments.Experiments` object as initialised by `main`
(openhpca_run.go:139-149) before the build loop fills `List`. -/
structure ExperimentsCfg where
  numResults : Int
  mpiInstallDir : String
  platform : PlatformInfo
  maxExecTime : String
  list : List Experiment
deriving DecidableEq, Repr

/-- The field assignments of openhpca_run.go:139-149. -/
def initExperiments (flags : Flags) (mpiInstallDir : String) : ExperimentsCfg :=
  { numResults := 1
    mpiInstallDir := mpiInstallDir
    platform := { name := flags.partition
                  device := flags.device
                  maxPPR := flags.ppn
                  maxNumNodes := flags.numNodes }
    maxExecTime := "1:00:00"
    list := [] }

/-- Observable effects of `displayResults` (openhpca_run.go:35-48):
what is printed to stdout and what file is written, with which contents
and permission bits. The file path keeps the three arguments of
`filepath.Join(cfg.Basedir, "..", result.FileName)` as components. -/
structure DisplayEffects where
  stdout : String
  filePathParts : List String
  fileContents : String
  filePerm : Nat
deriving DecidableEq, Repr

/-- Go `displayResults` (openhpca_run.go:35-48). `result.String`,
`result.FileName` and `result.FilePermission` live outside the analysed
source, so the rendered-string outcome and the two constants are taken
as parameters; `writeOk` is the outcome of `ioutil.WriteFile`. On
success the function prints the header-prefixed results string and
writes the bare results string next to the base directory. -/
def displayResults (fileName : String) (filePerm : Nat) (basedir : String)
    (resultsStr : Except Unit String) (writeOk : Bool) :
    Except Unit DisplayEffects :=
  match resultsStr with
  | .error e => .error e
  | .ok s =>
    if writeOk then
      .ok { stdout := "\nOpenHPCA:\n" ++ s
            filePathParts := [basedir, "..", fileName]
            fileContents := s
            filePerm := filePerm }
    else .error ()

/-- Environment of one invocation: everything `main` consumes besides the
flags. The three required lists are package-level constants defined
outside the analysed source (`config.OSURequiredBenchmarks`,
`smb.RequiredBenchmarks`, `overlap.RequiredBenchmarks`), so they are
inputs here; the booleans model the outcomes of the external calls. -/
structure World where
  cfgLoadOk : Bool
  workspaceDefined : Bool
  mpiDirValid : Bool
  mpiDir : String
  catalog : Catalog
  osuRequired : List String
  smbRequired : List String
  overlapRequired : List String
  runDirExists : Bool
  mkdirOk : Bool
  runOk : Bool
  displayOk : Bool

/-- How an invocation of `main` ends: a process exit with a code, or a
runtime panic; both record which experiments had been built and whether
the run directory had been created by the time the invocation ended. -/
inductive MainOutcome where
  | exited (code : Nat) (built : List Experiment) (runDirCreated : Bool)
  | panicked (built : List Experiment) (runDirCreated : Bool)
deriving DecidableEq, Repr

/-- The control flow of `main` (openhpca_run.go:67-256): help exit,
configuration load, the sanity checks in order, runtime and experiment
initialisation, mode-dependent selection, the build loop, run-directory
creation, submission, wait and result display. -/
def mainModel (flags : Flags) (w : World) : MainOutcome :=
  if flags.help then .exited 0 [] false
  else if !w.cfgLoadOk then .exited 1 [] false
  else if !w.workspaceDefined then .exited 1 [] false
  else if !w.mpiDirValid then .exited 1 [] false
  else if flags.maxRunningJobs ≤ 0 then .exited 1 [] false
  else
    let exps := initExperiments flags w.mpiDir
    match benchmarksToRun flags.longRun w.osuRequired w.smbRequired
        w.overlapRequired w.catalog with
    | .error _ => .panicked [] false
    | .ok toRun =>
      let built := buildExperiments exps.platform toRun
      if !w.runDirExists && !w.mkdirOk then .exited 1 built false
      else
        let runDirCreated := !w.runDirExists
        if !w.runOk then .exited 1 built runDirCreated
        else if !w.displayOk then .exited 1 built runDirCreated
        else .exited 0 built runDirCreated

/-! ## Theorems -/

/-- Claim C2: the classifier `experimentIsStrictlyPointToPoint` returns
true exactly for the five names osu_latency, osu_noncontig_mem_latency,
osu_bw, osu_noncontig_mem_bw and smb_mpi_overhead, and false for every
other string (the empty string and case variants included); an
unrecognized name is not an error, merely classified false. -/
theorem classifier_exact_set (s : String) :
    experimentIsStrictlyPointToPoint s = true ↔
      s = "osu_latency" ∨ s = "osu_noncontig_mem_latency" ∨ s = "osu_bw" ∨
      s = "osu_noncontig_mem_bw" ∨ s = "smb_mpi_overhead" := by
  unfold experimentIsStrictlyPointToPoint
  split_ifs <;> simp_all

/-- Claim C1: every experiment produced by the build loop carries a
topology override exactly when its derived name passes the
point-to-point classifier; the override fixes 1 rank per node and 2
nodes and copies partition name and device from the global platform,
independently of the global `--ppn`/`--num-nodes` values; otherwise no
override object is allocated. -/
theorem pointToPoint_topology_override (g : PlatformInfo)
    (toRun : List (String × Install)) (e : Experiment)
    (he : e ∈ buildExperiments g toRun) :
    e.platform =
      if experimentIsStrictlyPointToPoint e.name then
        some { name := g.name, device := g.device, maxPPR := 1, maxNumNodes := 2 }
      else none := by
  simp only [buildExperiments, List.mem_flatMap, List.mem_map] at he
  obtain ⟨⟨suite, inst⟩, _, sub, _, rfl⟩ := he
  rfl

/-- Witness for C1: a concrete point-to-point experiment built from the
"osu" suite and the osu_latency sub-benchmark under global topology
ppn 4, 8 nodes. -/
theorem pointToPoint_topology_override_witness :
    (buildExperiment ⟨"part", "dev", 4, 8⟩ "osu"
        ⟨"osu_latency", [], "osu_latency", "bin/osu_latency"⟩).platform =
      if experimentIsStrictlyPointToPoint
          (buildExperiment ⟨"part", "dev", 4, 8⟩ "osu"
            ⟨"osu_latency", [], "osu_latency", "bin/osu_latency"⟩).name then
        some { name := "part", device := "dev", maxPPR := 1, maxNumNodes := 2 }
      else none :=
  pointToPoint_topology_override ⟨"part", "dev", 4, 8⟩
    [("osu", ⟨[⟨"osu_latency", [], "osu_latency", "bin/osu_latency"⟩]⟩)] _
    (by simp [buildExperiments])

/-- Claim C10: the runtime parameters handed to the runner, other than
the concurrency bound, are constants independent of all CLI flags:
progress frequency 5, resubmission backoff 1, one expected result per
experiment, and a maximum execution time of "1:00:00". -/
theorem runtime_constants (flags : Flags) (mpiDir : String) :
    (newRuntime flags).progressFrequency = 5 ∧
    (newRuntime flags).sleepBeforeSubmittingAgain = 1 ∧
    (initExperiments flags mpiDir).numResults = 1 ∧
    (initExperiments flags mpiDir).maxExecTime = "1:00:00" :=
  ⟨rfl, rfl, rfl, rfl⟩

/-- Claim C3, counterexample: with a required list containing the name
osu_latency twice and one installed sub-benchmark of that name, the
filter output contains that sub-benchmark twice, so the output names are
not duplicate-free and the "at most once" part of the claim fails. -/
theorem filter_duplicate_requiredName_counterexample :
    filterSuiteGo ["osu_latency", "osu_latency"]
        [⟨"osu_latency", [], "osu_latency", "p"⟩] =
      [⟨"osu_latency", [], "osu_latency", "p"⟩,
       ⟨"osu_latency", [], "osu_latency", "p"⟩] ∧
    ¬ ((filterSuiteGo ["osu_latency", "osu_latency"]
        [⟨"osu_latency", [], "osu_latency", "p"⟩]).map AppInfo.name).Nodup := by
  refine ⟨rfl, ?_⟩
  decide

/-- Claim C3 (amended): filtering a suite in short mode emits, for every
occurrence of a name in the required list in order, the first installed
sub-benchmark carrying that name (duplicated installed names contribute
only their first occurrence per required entry, and a required name with
no installed match is skipped); consequently the output names are the
required-list entries that are installed, in required-list order, with a
name duplicated in the required list appearing once per occurrence. -/
theorem filter_matches_requiredList (required : List String)
    (installed : List AppInfo) :
    filterSuiteGo required installed =
      required.filterMap (fun n => installed.find? (fun a => a.name == n)) ∧
    (filterSuiteGo required installed).map AppInfo.name =
      required.filter
        (fun n => (installed.find? (fun a => a.name == n)).isSome) := by
  have hmain : filterSuiteGo required installed =
      required.filterMap (fun n => installed.find? (fun a => a.name == n)) := by
    induction required with
    | nil => rfl
    | cons name rest ih =>
      simp only [filterSuiteGo, List.filterMap_cons]
      cases h : installed.find? (fun a => a.name == name) <;> simp [h, ih]
  refine ⟨hmain, ?_⟩
  rw [hmain]
  clear hmain
  induction required with
  | nil => rfl
  | cons name rest ih =>
    simp only [List.filterMap_cons, List.filter_cons]
    cases h : installed.find? (fun a => a.name == name) with
    | none => simpa [h] using ih
    | some a =>
      have ha : a.name = name := by simpa using List.find?_some h
      simp [ha, ih]

/-- Claim C4, counterexample: in the stated scenario the derived
experiment names are osu_osu_latency and smb_smb_mpi_overhead — the
suite name prefixed to a sub-benchmark name that already carries the
suite prefix — and the classifier accepts neither, so no topology
override is allocated for either descriptor, contradicting the claimed
{ranks-per-node 1, nodes 2} overrides. -/
theorem endToEnd_scenario_counterexample :
    experimentIsStrictlyPointToPoint "osu_osu_latency" = false ∧
    experimentIsStrictlyPointToPoint "smb_smb_mpi_overhead" = false ∧
    (buildExperiments ⟨"", "", 4, 8⟩
        [("osu", ⟨[⟨"osu_latency", [], "osu_latency", "p1"⟩]⟩),
         ("smb", ⟨[⟨"smb_mpi_overhead", [], "smb_mpi_overhead", "p3"⟩]⟩),
         ("overlap", ⟨[]⟩)]).map Experiment.platform = [none, none] := by
  refine ⟨rfl, rfl, ?_⟩
  decide

/-- Claim C4 (amended): with a catalog holding suite "osu" (sub-benchmarks
osu_latency, osu_extra) and suite "smb" (smb_mpi_overhead), required
lists {osu: [osu_latency], smb: [smb_mpi_overhead]}, short mode and
global topology ppn 4, 8 nodes, the invocation builds exactly two
experiments, osu_osu_latency and smb_smb_mpi_overhead, each without a
topology override (so each inherits the global ppn 4, 8 nodes), and
osu_extra is excluded entirely. -/
theorem endToEnd_scenario :
    mainModel
      { verbose := false, help := false, partition := "", device := "",
        maxRunningJobs := 5, ppn := 4, numNodes := 8, longRun := false }
      { cfgLoadOk := true, workspaceDefined := true, mpiDirValid := true,
        mpiDir := "/opt/mpi",
        catalog := [("osu", ⟨[⟨"osu_latency", [], "osu_latency", "p1"⟩,
                             ⟨"osu_extra", [], "osu_extra", "p2"⟩]⟩),
                    ("smb", ⟨[⟨"smb_mpi_overhead", [], "smb_mpi_overhead", "p3"⟩]⟩)],
        osuRequired := ["osu_latency"], smbRequired := ["smb_mpi_overhead"],
        overlapRequired := [], runDirExists := true, mkdirOk := true,
        runOk := true, displayOk := true } =
    .exited 0
      [{ name := "osu_osu_latency", appName := "osu_osu_latency",
         binArgs := [], binName := "osu_latency", binPath := "p1",
         platform := none },
       { name := "smb_smb_mpi_overhead", appName := "smb_smb_mpi_overhead",
         binArgs := [], binName := "smb_mpi_overhead", binPath := "p3",
         platform := none }]
      false := by
  decide

/-- Claim C5: evaluation of the short-mode filter at a catalog missing
the "osu" suite with a non-empty osu required list: the code dereferences
the nil pointer returned by the map lookup and crashes, instead of
producing the empty sub-benchmark list the specification promises; only
an empty required list avoids the dereference. -/
theorem missingSuite_nilDeref :
    shortModeBenchmarks ["osu_latency"] [] []
        [("smb", ⟨[⟨"smb_mpi_overhead", [], "smb_mpi_overhead", "p3"⟩]⟩)] =
      .error () ∧
    filterSuite ["osu_latency"] (lookupSuite [] "osu") = .error () ∧
    filterSuite [] (lookupSuite [] "osu") = .ok [] :=
  ⟨rfl, rfl, rfl⟩

/-- Claim C6: when help is not requested and `--max-running-jobs` is zero
or negative, `main` exits with code 1 with no experiment built and no
run directory created, whatever the rest of the environment: the bound
check precedes both the filter/build phase and run-directory creation. -/
theorem concurrencyBound_failFast (flags : Flags) (w : World)
    (hh : flags.help = false) (hb : flags.maxRunningJobs ≤ 0) :
    mainModel flags w = .exited 1 [] false := by
  unfold mainModel
  rw [hh]
  simp only [Bool.false_eq_true, if_false]
  split_ifs <;> rfl

/-- Witness for C6: the concrete invocation with `--max-running-jobs 0`
in an otherwise healthy environment exits 1 before building anything. -/
theorem concurrencyBound_failFast_witness :
    mainModel
      { verbose := false, help := false, partition := "", device := "",
        maxRunningJobs := 0, ppn := 1, numNodes := 1, longRun := false }
      { cfgLoadOk := true, workspaceDefined := true, mpiDirValid := true,
        mpiDir := "/opt/mpi", catalog := [], osuRequired := [],
        smbRequired := [], overlapRequired := [], runDirExists := false,
        mkdirOk := true, runOk := true, displayOk := true } =
    .exited 1 [] false :=
  concurrencyBound_failFast _ _ rfl (by decide)

/-- Claim C7, counterexample: on a successful run with results string
"x", the file receives "x" while stdout receives "\nOpenHPCA:\nx", so
the file contents are not the same string as the one printed to
stdout. -/
theorem results_stdout_mismatch :
    displayResults "results.txt" 420 "base" (.ok "x") true =
      .ok { stdout := "\nOpenHPCA:\nx",
            filePathParts := ["base", "..", "results.txt"],
            fileContents := "x", filePerm := 420 } ∧
    "\nOpenHPCA:\nx" ≠ "x" := by
  refine ⟨rfl, ?_⟩
  decide

/-- Claim C7 (amended): on a successful run, a results file with the
fixed name and fixed permission bits is written into the parent of the
configured base directory; its contents are the rendered results
string, and stdout receives that same string prefixed by the fixed
header "\nOpenHPCA:\n". -/
theorem results_file_written (fileName : String) (filePerm : Nat)
    (basedir s : String) :
    displayResults fileName filePerm basedir (.ok s) true =
      .ok { stdout := "\nOpenHPCA:\n" ++ s
            filePathParts := [basedir, "..", fileName]
            fileContents := s
            filePerm := filePerm } :=
  rfl

/-- Claim C8: the build phase is deterministic up to suite-iteration
order: building from two orderings of the same selected suites yields
experiment lists that are permutations of each other — same experiments
(name, topology override, binary path, binary name, arguments),
reordered only by suite. -/
theorem build_deterministic_up_to_suite_order (g : PlatformInfo)
    (t1 t2 : List (String × Install)) (hp : t1.Perm t2) :
    (buildExperiments g t1).Perm (buildExperiments g t2) :=
  hp.flatMap_right _

/-- Witness for C8: swapping the "osu" and "smb" suites permutes the
built experiment list accordingly. -/
theorem build_deterministic_up_to_suite_order_witness :
    ([("osu", (⟨[⟨"osu_latency", [], "osu_latency", "p1"⟩]⟩ : Install)),
      ("smb", ⟨[⟨"smb_mpi_overhead", [], "smb_mpi_overhead", "p3"⟩]⟩)].Perm
      [("smb", (⟨[⟨"smb_mpi_overhead", [], "smb_mpi_overhead", "p3"⟩]⟩ : Install)),
       ("osu", ⟨[⟨"osu_latency", [], "osu_latency", "p1"⟩]⟩)]) ∧
    (buildExperiments ⟨"", "", 4, 8⟩
      [("osu", ⟨[⟨"osu_latency", [], "osu_latency", "p1"⟩]⟩),
       ("smb", ⟨[⟨"smb_mpi_overhead", [], "smb_mpi_overhead", "p3"⟩]⟩)]).Perm
    (buildExperiments ⟨"", "", 4, 8⟩
      [("smb", ⟨[⟨"smb_mpi_overhead", [], "smb_mpi_overhead", "p3"⟩]⟩),
       ("osu", ⟨[⟨"osu_latency", [], "osu_latency", "p1"⟩]⟩)]) :=
  have hp := List.Perm.swap
    ("smb", (⟨[⟨"smb_mpi_overhead", [], "smb_mpi_overhead", "p3"⟩]⟩ : Install))
    ("osu", ⟨[⟨"osu_latency", [], "osu_latency", "p1"⟩]⟩) []
  ⟨hp, build_deterministic_up_to_suite_order ⟨"", "", 4, 8⟩ _ _ hp⟩

/-- Claim C9: in short mode the map of benchmarks to run carries exactly
the three suite keys "osu", "smb" and "overlap" in every successful
filtering, so a suite installed under any other name contributes no
experiment in short mode — adding such a suite to the catalog leaves the
short-mode selection unchanged; in long mode the full installed catalog
is used. -/
theorem shortMode_suiteKeys :
    (∀ (osuReq smbReq overlapReq : List String) (catalog : Catalog)
        (l : List (String × Install)),
        benchmarksToRun false osuReq smbReq overlapReq catalog = .ok l →
        l.map Prod.fst = ["osu", "smb", "overlap"]) ∧
    (∀ (osuReq smbReq overlapReq : List String) (other : String)
        (inst : Install) (catalog : Catalog),
        other ≠ "osu" → other ≠ "smb" → other ≠ "overlap" →
        benchmarksToRun false osuReq smbReq overlapReq
            ((other, inst) :: catalog) =
          benchmarksToRun false osuReq smbReq overlapReq catalog) ∧
    (∀ (osuReq smbReq overlapReq : List String) (catalog : Catalog),
        benchmarksToRun true osuReq smbReq overlapReq catalog =
          .ok catalog) := by
  refine ⟨?_, ?_, fun _ _ _ _ => rfl⟩
  · intro o s v c l h
    simp only [benchmarksToRun, Bool.not_false, if_true, shortModeBenchmarks] at h
    cases h1 : filterSuite o (lookupSuite c "osu") with
    | error e => rw [h1] at h; exact absurd h (by simp [Bind.bind, Except.bind])
    | ok osu =>
      rw [h1] at h
      cases h2 : filterSuite s (lookupSuite c "smb") with
      | error e => rw [h2] at h; exact absurd h (by simp [Bind.bind, Except.bind])
      | ok smb =>
        rw [h2] at h
        cases h3 : filterSuite v (lookupSuite c "overlap") with
        | error e => rw [h3] at h; exact absurd h (by simp [Bind.bind, Except.bind])
        | ok ovl =>
          rw [h3] at h
          simp only [Bind.bind, Except.bind, pure, Except.pure, Except.ok.injEq] at h
          subst h
          rfl
  · intro o s v other inst c ho hs hv
    simp only [benchmarksToRun, Bool.not_false, if_true, shortModeBenchmarks,
      lookupSuite, if_neg ho, if_neg hs, if_neg hv]

/-- Witness for C9: a concrete successful short-mode filtering over a
catalog containing the three suites plus an extra suite "foo", which
changes nothing. -/
theorem shortMode_suiteKeys_witness :
    ([("osu", (⟨[]⟩ : Install)), ("smb", ⟨[]⟩), ("overlap", ⟨[]⟩)].map
        Prod.fst = ["osu", "smb", "overlap"]) ∧
    benchmarksToRun false [] [] [] [("foo", ⟨[]⟩), ("osu", ⟨[]⟩)] =
      benchmarksToRun false [] [] [] [("osu", ⟨[]⟩)] :=
  ⟨shortMode_suiteKeys.1 [] [] []
      [("osu", ⟨[]⟩), ("smb", ⟨[]⟩), ("overlap", ⟨[]⟩)] _ rfl,
   shortMode_suiteKeys.2.1 [] [] [] "foo" ⟨[]⟩ [("osu", ⟨[]⟩)]
      (by decide) (by decide) (by decide)⟩

end OpenHPCA
